import Mathlib

/-!
# Verification of the Zammad MCP server's handler logic

This file gives a shallow embedding, in Lean 4, of the tool-handler logic of
the `zammad-mcp-go` repository (`main.go`), and proves (or refutes) the frozen
specification claims about it.

Modelling conventions:

* Go strings that the code inspects byte-by-byte (`toLower`,
  `containsIgnoreCase`, the text-module filter) are modelled as `List Nat`,
  one `Nat` per byte.  Go strings that are only compared, concatenated or
  interpolated are modelled as Lean `String`.
* The Zammad backend, the `zammad-go` client library and `encoding/json` are
  external collaborators; each backend interaction a handler can perform is an
  oracle field of an `Env` record.  Handlers return the list of backend calls
  they issued (in order) together with their Go return value
  `(*mcp.CallToolResult, error)`, modelled as `Except String CallToolResult`
  (`.error` = non-nil Go error, i.e. a protocol-level failure).
* `log.Printf` output is modelled (as a `List String`) only for
  `handleCloseTicket`, whose claims are about what is logged versus what is
  returned; for the other handlers the stderr log is irrelevant to every claim
  and is elided.
-/

namespace ZammadMCP

/-- Decidable equality for `Except`, needed to `decide` concrete handler
outcomes. -/
instance {ε α : Type} [DecidableEq ε] [DecidableEq α] : DecidableEq (Except ε α) := fun x y =>
  match x, y with
  | .ok a, .ok b =>
    if h : a = b then .isTrue (by rw [h]) else .isFalse (by intro hh; cases hh; exact h rfl)
  | .error a, .error b =>
    if h : a = b then .isTrue (by rw [h]) else .isFalse (by intro hh; cases hh; exact h rfl)
  | .ok _, .error _ => .isFalse (by intro h; cases h)
  | .error _, .ok _ => .isFalse (by intro h; cases h)

/-! ## Byte-level string helpers (`main.go` lines 1152–1183)

A Go `string` is a byte sequence; `len`, indexing and slicing in
`containsIgnoreCase` are byte-based, so these functions act on `List Nat`
(one entry per byte). -/

/-- One step of `toLower` (`main.go:1172-1183`): bytes `'A'`..`'Z'`
(65..90) get 32 added; every other byte is returned unchanged. -/
def toLowerByte (b : Nat) : Nat :=
  if 65 ≤ b ∧ b ≤ 90 then b + 32 else b

/-- `toLower` (`main.go:1172-1183`): byte-wise ASCII lowering of a Go
string. -/
def toLower (s : List Nat) : List Nat :=
  s.map toLowerByte

/-- `containsIgnoreCase` (`main.go:1152-1170`): empty needle matches; a
needle longer than the haystack does not; otherwise both are lowered and
every alignment `i` in `0 ≤ i ≤ len(sLower)-len(substrLower)` is compared
by byte-slice equality. -/
def containsIgnoreCase (s substr : List Nat) : Bool :=
  if substr.length = 0 then true
  else if s.length < substr.length then false
  else
    let sLower := toLower s
    let substrLower := toLower substr
    (List.range (sLower.length - substrLower.length + 1)).any fun i =>
      decide ((sLower.drop i).take substrLower.length = substrLower)

/-- ASCII byte view of a Lean string literal; for the pure-ASCII literals used
below this coincides with Go's byte representation of the same literal. -/
def ascii (s : String) : List Nat :=
  s.data.map Char.toNat

/-! ## Data model (pass-through representations of `zammad-go` structs and
the local `TextModule` struct, `main.go:23-36`).  Field defaults are the Go
zero values, so a Lean structure literal that sets only some fields models
the corresponding Go composite literal. -/

/-- `zammad.TicketArticle` (the fields the handlers read or set). -/
structure TicketArticle where
  id : Int := 0
  ticketID : Int := 0
  body : String := ""
  type : String := ""
  sender : String := ""
  subject : String := ""
  -- Go field `To`; `to` is a Lean keyword, hence the underscore
  to_ : String := ""
  cc : String := ""
  contentType : String := ""
  internal : Bool := false
  deriving DecidableEq, Repr

/-- `zammad.Ticket` (the fields the handlers read or set). -/
structure Ticket where
  id : Int := 0
  title : String := ""
  group : String := ""
  customer : String := ""
  state : String := ""
  article : TicketArticle := {}
  deriving DecidableEq, Repr

/-- `zammad.User` (the fields `handleGetUser` copies into its standard-data
result). -/
structure User where
  id : Int := 0
  organizationID : Int := 0
  login : String := ""
  firstname : String := ""
  lastname : String := ""
  email : String := ""
  web : String := ""
  lastLogin : String := ""
  deriving DecidableEq, Repr

/-- `zammad.Tag` (name is what the handlers compare and report). -/
structure Tag where
  id : Int := 0
  name : String := ""
  deriving DecidableEq, Repr

/-- `TextModule` (`main.go:23-36`).  `name`, `keywords` and `content` are byte
strings because the search filter inspects them byte-by-byte. -/
structure TextModule where
  id : Int := 0
  name : List Nat := []
  keywords : List Nat := []
  content : List Nat := []
  note : List Nat := []
  active : Bool := false
  groupIDs : List Int := []
  createdAt : String := ""
  updatedAt : String := ""
  createdBy : Int := 0
  updatedBy : Int := 0
  deriving DecidableEq, Repr

/-! ## The backend client and the manual auth-header construction -/

/-- The credential fields of `zammad.Client` that the manual auth-header code
reads (`main.go:509-518` and the identical blocks in the other raw-HTTP
handlers). -/
structure ZClient where
  url : String := ""
  username : String := ""
  password : String := ""
  token : String := ""
  oauth : String := ""
  deriving DecidableEq, Repr

/-- The possible final values of the single `Authorization` HTTP header:
`req.SetBasicAuth` writes `Basic …`, the token branch writes
`Token token=…`, the OAuth branch writes `Bearer …`. -/
inductive AuthValue
  | basic (username password : String)
  | token (t : String)
  | bearer (o : String)
  deriving DecidableEq, Repr

/-- The three sequential `if` statements every raw-HTTP handler runs
(e.g. `main.go:657-666`).  Each branch, when taken, overwrites the single
`Authorization` header (`Header.Set` replaces; `SetBasicAuth` also writes
`Authorization`). -/
def applyAuthHeaders (c : ZClient) (authorization : Option AuthValue) : Option AuthValue :=
  let authorization :=
    if c.username ≠ "" ∧ c.password ≠ "" then some (AuthValue.basic c.username c.password)
    else authorization
  let authorization :=
    if c.token ≠ "" then some (AuthValue.token c.token) else authorization
  let authorization :=
    if c.oauth ≠ "" then some (AuthValue.bearer c.oauth) else authorization
  authorization

/-- The `Authorization` header a fresh request carries after the three `if`s
(a new request starts with no `Authorization` header). -/
def authHeader (c : ZClient) : Option AuthValue :=
  applyAuthHeaders c none

/-! ## Backend interaction model -/

/-- Payload of a raw request a handler builds by hand. -/
inductive UpdateData
  | stateClosed
  | ownerId (agentID : Int)
  deriving DecidableEq, Repr

/-- Body of a raw HTTP request. -/
inductive RawBody
  | empty
  | update (u : UpdateData)
  | tagAdd (objectName : String) (o_id : Int) (item : String)
  deriving DecidableEq, Repr

/-- One backend call, as recorded in a handler's trace. -/
inductive Call
  | ticketShow (id : Int)
  | ticketCreate (t : Ticket)
  | ticketArticleCreate (a : TicketArticle)
  | ticketSearch (query : String) (limit : Int)
  | userShow (id : Int)
  | userSearch (query : String) (limit : Int)
  | ticketArticleByTicket (id : Int)
  | ticketTagByTicket (id : Int)
  | tagSearch (term : String)
  | tagAdminList
  | rawHttp (method : String) (path : String) (auth : Option AuthValue) (body : RawBody)
  deriving DecidableEq, Repr

/-- Outcome of one raw HTTP flow (`NewRequest`, then `Client.Do`, then decode
of the response body):  `NewRequest` can fail before any HTTP is performed,
`Do` can fail at the transport, or a response with a status code arrives whose
body decodes to an `α` or fails to decode. -/
inductive RawStep (α : Type)
  | newReqError (e : String)
  | doError (e : String)
  | resp (status : Nat) (body : Except String α)

instance {α : Type} [DecidableEq α] : DecidableEq (RawStep α) := fun x y =>
  match x, y with
  | .newReqError a, .newReqError b =>
    if h : a = b then .isTrue (by rw [h]) else .isFalse (by intro hh; cases hh; exact h rfl)
  | .doError a, .doError b =>
    if h : a = b then .isTrue (by rw [h]) else .isFalse (by intro hh; cases hh; exact h rfl)
  | .resp s a, .resp t b =>
    if h : s = t ∧ a = b then .isTrue (by rw [h.1, h.2])
    else .isFalse (by intro hh; cases hh; exact h ⟨rfl, rfl⟩)
  | .newReqError _, .doError _ => .isFalse (by intro h; cases h)
  | .newReqError _, .resp _ _ => .isFalse (by intro h; cases h)
  | .doError _, .newReqError _ => .isFalse (by intro h; cases h)
  | .doError _, .resp _ _ => .isFalse (by intro h; cases h)
  | .resp _ _, .newReqError _ => .isFalse (by intro h; cases h)
  | .resp _ _, .doError _ => .isFalse (by intro h; cases h)

/-- The result `handleGetUser` marshals: either the raw extended-data map
(uninterpreted JSON text) or the standard-field projection of a `User`. -/
inductive UserData
  | extended (raw : String)
  | standard (u : User)
  deriving DecidableEq, Repr

/-- The environment a handler runs against: the client credentials, one
oracle per typed `zammad-go` client call, one oracle per raw HTTP flow, and
one oracle per `json.MarshalIndent` call site (JSON encoding is external;
only its success text / failure matters to the handlers). -/
structure Env where
  client : ZClient
  ticketShow : Int → Except String Ticket
  ticketCreate : Ticket → Except String Ticket
  ticketArticleCreate : TicketArticle → Except String TicketArticle
  ticketSearch : String → Int → Except String (List Ticket)
  userShow : Int → Except String User
  userSearch : String → Int → Except String (List User)
  ticketArticleByTicket : Int → Except String (List TicketArticle)
  ticketTagByTicket : Int → Except String (List Tag)
  tagSearch : String → Except String (List Tag)
  tagAdminList : Except String (List Tag)
  putTicket : Int → UpdateData → RawStep Ticket
  getUserExtended : Int → RawStep String
  postTagAdd : Int → String → RawStep String
  getTextModulesRaw : RawStep (List TextModule)
  getTextModuleRaw : Int → RawStep TextModule
  marshalTicket : Ticket → Except String String
  marshalTickets : List Ticket → Except String String
  marshalArticle : TicketArticle → Except String String
  marshalArticles : List TicketArticle → Except String String
  marshalUserData : UserData → Except String String
  marshalUsers : List User → Except String String
  marshalTags : List Tag → Except String String
  marshalTextModule : TextModule → Except String String
  marshalTextModules : List TextModule → Except String String

/-- `*mcp.CallToolResult` as the handlers build it: an error flag
(`NewToolResultError`) or a plain text result (`NewToolResultText`). -/
structure CallToolResult where
  isError : Bool
  text : String
  deriving DecidableEq, Repr

/-- `mcp.NewToolResultError`. -/
def toolError (s : String) : CallToolResult := ⟨true, s⟩

/-- `mcp.NewToolResultText`. -/
def toolText (s : String) : CallToolResult := ⟨false, s⟩

/-- `mcp.NewToolResultErrorFromErr`: an error result carrying the message and
the underlying cause. -/
def toolErrorFromErr (s err : String) : CallToolResult := ⟨true, s ++ ": " ++ err⟩

/-- What a Go tool handler returns, `(*mcp.CallToolResult, error)`:
`.ok r` models `(r, nil)`, `.error e` models `(nil, err)` — a protocol-level
failure handed to the dispatcher. -/
abbrev ToolReturn := Except String CallToolResult

/-- Go's `resultData, _ := json.MarshalIndent(...)`: the error is discarded
and on failure the `nil` byte slice stringifies to `""`. -/
def marshalDiscard (m : Except String String) : String :=
  match m with
  | .ok s => s
  | .error _ => ""

/-! ## Tool handlers (`main.go:357-1149`)

Each handler takes its already-parsed arguments (argument decoding with
defaults is the SDK's `mcp.ParseString`/`ParseInt`/`ParseBoolean`; a missing
argument arrives as its default) and returns the ordered list of backend
calls it issued together with its Go return value. -/

/-- `handleCreateTicket` (`main.go:357-377`). -/
def handleCreateTicket (env : Env) (title group customer body articleType : String)
    (internal : Bool) : List Call × ToolReturn :=
  if title = "" ∨ group = "" ∨ customer = "" ∨ body = "" then
    ([], .ok (toolError "Missing required arguments: title, group, customer, body"))
  else
    let ticket : Ticket :=
      { title := title, group := group, customer := customer,
        article := { body := body, type := articleType, internal := internal } }
    match env.ticketCreate ticket with
    | .error e =>
      ([Call.ticketCreate ticket], .ok (toolErrorFromErr "Failed to create ticket" e))
    | .ok createdTicket =>
      let resultData := marshalDiscard (env.marshalTicket createdTicket)
      ([Call.ticketCreate ticket],
       .ok (toolText ("Ticket created successfully:\n" ++ resultData)))

/-- `handleSearchTickets` (`main.go:379-398`). -/
def handleSearchTickets (env : Env) (query : String) (limit : Int) : List Call × ToolReturn :=
  if query = "" then
    ([], .ok (toolError "Missing required argument: query"))
  else
    match env.ticketSearch query limit with
    | .error e =>
      ([Call.ticketSearch query limit], .ok (toolErrorFromErr "Failed to search tickets" e))
    | .ok tickets =>
      match env.marshalTickets tickets with
      | .error e =>
        ([Call.ticketSearch query limit],
         .ok (toolErrorFromErr "Failed to format search results" e))
      | .ok resultData =>
        ([Call.ticketSearch query limit],
         .ok (toolText ("Search Results (" ++ toString tickets.length ++ " found):\n" ++
           resultData)))

/-- `handleAddNoteToTicket` (`main.go:400-417`). -/
def handleAddNoteToTicket (env : Env) (ticketID : Int) (body : String)
    (internal : Bool) : List Call × ToolReturn :=
  if ticketID ≤ 0 ∨ body = "" then
    ([], .ok (toolError "Missing or invalid required arguments: ticket_id, body"))
  else
    let article : TicketArticle :=
      { ticketID := ticketID, body := body, type := "note", internal := internal }
    match env.ticketArticleCreate article with
    | .error e =>
      ([Call.ticketArticleCreate article],
       .ok (toolErrorFromErr ("Failed to add note to ticket " ++ toString ticketID) e))
    | .ok createdArticle =>
      let resultData := marshalDiscard (env.marshalArticle createdArticle)
      ([Call.ticketArticleCreate article],
       .ok (toolText ("Note added successfully to ticket " ++ toString ticketID ++ ":\n" ++
         resultData)))

/-- The email-article creation shared by both branches of
`handleReplyToTicket` (`main.go:442-463`): build the email-type article with
sender `"Agent"` and content type `"text/html"`, create it, report. -/
def replyCreateArticle (env : Env) (ticketID : Int) (body to_ cc subject : String)
    (internal : Bool) (callsSoFar : List Call) : List Call × ToolReturn :=
  let article : TicketArticle :=
    { ticketID := ticketID, body := body, type := "email", sender := "Agent",
      subject := subject, to_ := to_, cc := cc, internal := internal,
      contentType := "text/html" }
  match env.ticketArticleCreate article with
  | .error e =>
    (callsSoFar ++ [Call.ticketArticleCreate article],
     .ok (toolErrorFromErr ("Failed to send email reply to ticket " ++ toString ticketID) e))
  | .ok createdArticle =>
    let resultData := marshalDiscard (env.marshalArticle createdArticle)
    (callsSoFar ++ [Call.ticketArticleCreate article],
     .ok (toolText ("Email reply sent successfully to ticket " ++ toString ticketID ++
       ":\n" ++ resultData)))

/-- `handleReplyToTicket` (`main.go:419-464`): validate; when `subject` is
empty, fetch the ticket first and derive `"Re: " + title`; then create the
email article. -/
def handleReplyToTicket (env : Env) (ticketID : Int) (body to_ cc subject : String)
    (internal : Bool) : List Call × ToolReturn :=
  if ticketID ≤ 0 ∨ body = "" then
    ([], .ok (toolError "Missing or invalid required arguments: ticket_id, body"))
  else
    if subject = "" then
      match env.ticketShow ticketID with
      | .error e =>
        ([Call.ticketShow ticketID],
         .ok (toolErrorFromErr ("Failed to fetch ticket " ++ toString ticketID) e))
      | .ok ticket =>
        replyCreateArticle env ticketID body to_ cc ("Re: " ++ ticket.title) internal
          [Call.ticketShow ticketID]
    else
      replyCreateArticle env ticketID body to_ cc subject internal []

/-- `handleGetTicket` (`main.go:466-484`).  Note the marshal-failure branch
returns `(nil, err)` — a protocol-level error — unlike the search handlers. -/
def handleGetTicket (env : Env) (ticketID : Int) : List Call × ToolReturn :=
  if ticketID ≤ 0 then
    ([], .ok (toolError "Missing or invalid required argument: ticket_id (must be a positive number)"))
  else
    match env.ticketShow ticketID with
    | .error e =>
      ([Call.ticketShow ticketID],
       .ok (toolErrorFromErr ("Failed to get ticket " ++ toString ticketID) e))
    | .ok ticket =>
      match env.marshalTicket ticket with
      | .error e =>
        ([Call.ticketShow ticketID],
         .error ("failed to marshal ticket " ++ toString ticketID ++ ": " ++ e))
      | .ok jsonData =>
        ([Call.ticketShow ticketID],
         .ok (toolText ("Ticket " ++ toString ticketID ++ " details:\n" ++ jsonData)))

/-- The shared tail of `handleGetUser` (`main.go:564-575`): marshal the
collected result (protocol-level error on failure) and wrap it. -/
def getUserFinish (env : Env) (userID : Int) (withExtendedData : Bool)
    (resultData : UserData) (calls : List Call) : List Call × ToolReturn :=
  match env.marshalUserData resultData with
  | .error e =>
    (calls, .error ("failed to marshal user " ++ toString userID ++ " data: " ++ e))
  | .ok jsonData =>
    let dataType := if withExtendedData then "extended" else "standard"
    (calls,
     .ok (toolText ("User " ++ toString userID ++ " details (" ++ dataType ++ " data):\n" ++
       jsonData)))

/-- `handleGetUser` (`main.go:489-575`): extended data goes through a raw GET
with manually attached auth headers; standard data uses the typed client. -/
def handleGetUser (env : Env) (userID : Int) (withExtendedData : Bool) :
    List Call × ToolReturn :=
  if userID ≤ 0 then
    ([], .ok (toolError "Missing or invalid required argument: user_id (must be a positive number)"))
  else
    if withExtendedData then
      let rawCall := Call.rawHttp "GET" (env.client.url ++ "/api/v1/users/" ++ toString userID)
        (authHeader env.client) RawBody.empty
      match env.getUserExtended userID with
      | .newReqError e =>
        ([], .ok (toolErrorFromErr ("Failed to create request for user " ++ toString userID) e))
      | .doError e =>
        ([rawCall],
         .ok (toolErrorFromErr ("Failed to get extended data for user " ++ toString userID) e))
      | .resp status bodyDec =>
        if status ≠ 200 then
          ([rawCall],
           .ok (toolError ("Failed to get user " ++ toString userID ++ ": HTTP status " ++
             toString status)))
        else
          match bodyDec with
          | .error e =>
            ([rawCall],
             .ok (toolErrorFromErr ("Failed to decode extended data for user " ++
               toString userID) e))
          | .ok rawUserData =>
            getUserFinish env userID withExtendedData (UserData.extended rawUserData) [rawCall]
    else
      match env.userShow userID with
      | .error e =>
        ([Call.userShow userID],
         .ok (toolErrorFromErr ("Failed to get user " ++ toString userID) e))
      | .ok user =>
        getUserFinish env userID withExtendedData (UserData.standard user) [Call.userShow userID]

/-- `handleSearchUsers` (`main.go:578-602`). -/
def handleSearchUsers (env : Env) (query : String) (limit : Int) : List Call × ToolReturn :=
  if query = "" then
    ([], .ok (toolError "Missing required argument: query"))
  else
    match env.userSearch query limit with
    | .error e =>
      ([Call.userSearch query limit], .ok (toolErrorFromErr "Failed to search users" e))
    | .ok users =>
      match env.marshalUsers users with
      | .error e =>
        ([Call.userSearch query limit],
         .ok (toolErrorFromErr "Failed to format user search results" e))
      | .ok resultData =>
        ([Call.userSearch query limit],
         .ok (toolText ("User Search Results (" ++ toString users.length ++ " found):\n" ++
           resultData)))

/-- `handleGetTicketArticles` (`main.go:607-631`).  Marshal failure is a
protocol-level error, as in `handleGetTicket`. -/
def handleGetTicketArticles (env : Env) (ticketID : Int) : List Call × ToolReturn :=
  if ticketID ≤ 0 then
    ([], .ok (toolError "Missing or invalid required argument: ticket_id (must be a positive number)"))
  else
    match env.ticketArticleByTicket ticketID with
    | .error e =>
      ([Call.ticketArticleByTicket ticketID],
       .ok (toolErrorFromErr ("Failed to get articles for ticket " ++ toString ticketID) e))
    | .ok articles =>
      match env.marshalArticles articles with
      | .error e =>
        ([Call.ticketArticleByTicket ticketID],
         .error ("failed to marshal articles for ticket " ++ toString ticketID ++ ": " ++ e))
      | .ok jsonData =>
        ([Call.ticketArticleByTicket ticketID],
         .ok (toolText ("Ticket " ++ toString ticketID ++ " Articles (" ++
           toString articles.length ++ " found):\n" ++ jsonData)))

/-- The internal closing note `handleCloseTicket` builds when a `note`
argument was supplied (`main.go:692-698`). -/
def closingNoteArticle (ticketID : Int) (note : String) : TicketArticle :=
  { ticketID := ticketID, body := note, type := "note", internal := true,
    subject := "Ticket closed" }

/-- `handleCloseTicket` (`main.go:633-711`).  Output is
`(backend calls, log lines, Go return value)`; the log matters here because
the note-step warning goes only to `log.Printf`. -/
def handleCloseTicket (env : Env) (ticketID : Int) (note : String) :
    List Call × List String × ToolReturn :=
  if ticketID ≤ 0 then
    ([], [],
     .ok (toolError "Missing or invalid required argument: ticket_id (must be a positive number)"))
  else
    let putCall := Call.rawHttp "PUT"
      (env.client.url ++ "/api/v1/tickets/" ++ toString ticketID)
      (authHeader env.client) (RawBody.update UpdateData.stateClosed)
    match env.putTicket ticketID UpdateData.stateClosed with
    | .newReqError e =>
      ([], [],
       .ok (toolErrorFromErr ("Failed to create request to close ticket " ++ toString ticketID) e))
    | .doError e =>
      ([putCall], [],
       .ok (toolErrorFromErr ("Failed to close ticket " ++ toString ticketID) e))
    | .resp status bodyDec =>
      if status ≠ 200 then
        ([putCall], [],
         .ok (toolError ("Failed to close ticket " ++ toString ticketID ++ ": HTTP status " ++
           toString status)))
      else
        match bodyDec with
        | .error e =>
          ([putCall], [],
           .ok (toolErrorFromErr ("Failed to decode response when closing ticket " ++
             toString ticketID) e))
        | .ok updatedTicket =>
          let noteStep : List Call × List String :=
            if note ≠ "" then
              let article := closingNoteArticle ticketID note
              match env.ticketArticleCreate article with
              | .error e =>
                ([Call.ticketArticleCreate article],
                 ["Warning: Ticket " ++ toString ticketID ++
                  " closed successfully, but failed to add closing note: " ++ e])
              | .ok createdArticle =>
                ([Call.ticketArticleCreate article],
                 ["Added closing note (Article ID " ++ toString createdArticle.id ++
                  ") to ticket ID " ++ toString ticketID])
            else ([], [])
          let resultData := marshalDiscard (env.marshalTicket updatedTicket)
          (putCall :: noteStep.1, noteStep.2,
           .ok (toolText ("Ticket " ++ toString ticketID ++ " closed successfully:\n" ++
             resultData)))

/-- The internal assignment note `handleAssignTicket` builds
(`main.go:769-775`). -/
def assignNoteArticle (ticketID : Int) (note : String) : TicketArticle :=
  { ticketID := ticketID, body := note, type := "note", internal := true,
    subject := "Ticket assigned" }

/-- `handleAssignTicket` (`main.go:713-788`).  Same two-phase shape as
`handleCloseTicket`: primary PUT of `owner_id`, then a best-effort note. -/
def handleAssignTicket (env : Env) (ticketID agentID : Int) (note : String) :
    List Call × List String × ToolReturn :=
  if ticketID ≤ 0 ∨ agentID ≤ 0 then
    ([], [],
     .ok (toolError "Missing or invalid required arguments: ticket_id and agent_id (both must be positive numbers)"))
  else
    let putCall := Call.rawHttp "PUT"
      (env.client.url ++ "/api/v1/tickets/" ++ toString ticketID)
      (authHeader env.client) (RawBody.update (UpdateData.ownerId agentID))
    match env.putTicket ticketID (UpdateData.ownerId agentID) with
    | .newReqError e =>
      ([], [],
       .ok (toolErrorFromErr ("Failed to create request to assign ticket " ++ toString ticketID) e))
    | .doError e =>
      ([putCall], [],
       .ok (toolErrorFromErr ("Failed to send request to assign ticket " ++ toString ticketID) e))
    | .resp status bodyDec =>
      if status ≠ 200 then
        ([putCall], [],
         .ok (toolError ("Failed to assign ticket " ++ toString ticketID ++ ": HTTP " ++
           toString status)))
      else
        match bodyDec with
        | .error e =>
          ([putCall], [],
           .ok (toolErrorFromErr ("Failed to decode response when assigning ticket " ++
             toString ticketID) e))
        | .ok updatedTicket =>
          let noteStep : List Call × List String :=
            if note ≠ "" then
              let article := assignNoteArticle ticketID note
              match env.ticketArticleCreate article with
              | .error e =>
                ([Call.ticketArticleCreate article],
                 ["Warning: Ticket " ++ toString ticketID ++
                  " assigned successfully, but failed to add assignment note: " ++ e])
              | .ok createdArticle =>
                ([Call.ticketArticleCreate article],
                 ["Added assignment note (Article ID " ++ toString createdArticle.id ++
                  ") to ticket ID " ++ toString ticketID])
            else ([], [])
          let resultData := marshalDiscard (env.marshalTicket updatedTicket)
          (putCall :: noteStep.1, noteStep.2,
           .ok (toolText ("Ticket " ++ toString ticketID ++ " assigned to agent " ++
             toString agentID ++ " successfully:\n" ++ resultData)))

/-- `handleAddTagToTicket` (`main.go:790-891`): validate, POST the tag
association via a raw request (success = HTTP 201 or 200), then always run the
best-effort verification read (the `if true` branch at `main.go:866`). -/
def handleAddTagToTicket (env : Env) (ticketID : Int) (tagName : String) :
    List Call × ToolReturn :=
  if ticketID ≤ 0 ∨ tagName = "" then
    ([], .ok (toolError "Missing or invalid required arguments: ticket_id (must be positive) and tag_name (must not be empty)"))
  else if 100 < tagName.utf8ByteSize then
    ([], .ok (toolError "Tag name is too long (maximum 100 characters)"))
  else
    let postCall := Call.rawHttp "POST" (env.client.url ++ "/api/v1/tags/add")
      (authHeader env.client) (RawBody.tagAdd "Ticket" ticketID tagName)
    -- the `err := func() error { ... }()` closure (`main.go:814-859`)
    let step : List Call × Option String :=
      match env.postTagAdd ticketID tagName with
      | .newReqError e => ([], some e)
      | .doError e => ([postCall], some e)
      | .resp status bodyDec =>
        let bodyString := match bodyDec with
          | .ok s => s
          | .error _ => "unable to read response"
        if status = 201 then ([postCall], none)
        else if status = 200 then ([postCall], none)
        else ([postCall], some ("HTTP status " ++ toString status ++ ": " ++ bodyString))
    match step.2 with
    | some e =>
      (step.1,
       .ok (toolErrorFromErr ("Failed to add tag '" ++ tagName ++ "' to ticket " ++
         toString ticketID) e))
    | none =>
      match env.ticketTagByTicket ticketID with
      | .error e =>
        (step.1 ++ [Call.ticketTagByTicket ticketID],
         .ok (toolText ("Tag '" ++ tagName ++ "' added to ticket " ++ toString ticketID ++
           " (verification failed: " ++ e ++ ")")))
      | .ok currentTags =>
        let tagFound := currentTags.any fun tag => tag.name == tagName
        if tagFound then
          (step.1 ++ [Call.ticketTagByTicket ticketID],
           .ok (toolText ("Tag '" ++ tagName ++ "' successfully added to ticket " ++
             toString ticketID ++ " (verified)")))
        else
          (step.1 ++ [Call.ticketTagByTicket ticketID],
           .ok (toolText ("Tag '" ++ tagName ++ "' added to ticket " ++ toString ticketID ++
             " (not found in verification - may need time to propagate)")))

/-- `handleGetTicketTags` (`main.go:894-919`). -/
def handleGetTicketTags (env : Env) (ticketID : Int) : List Call × ToolReturn :=
  if ticketID ≤ 0 then
    ([], .ok (toolError "Missing or invalid required argument: ticket_id (must be positive)"))
  else
    match env.ticketTagByTicket ticketID with
    | .error e =>
      ([Call.ticketTagByTicket ticketID],
       .ok (toolErrorFromErr ("Failed to get tags for ticket " ++ toString ticketID) e))
    | .ok tags =>
      if tags.length = 0 then
        ([Call.ticketTagByTicket ticketID],
         .ok (toolText ("No tags found for ticket " ++ toString ticketID)))
      else
        match env.marshalTags tags with
        | .error e =>
          ([Call.ticketTagByTicket ticketID],
           .ok (toolErrorFromErr "Failed to format tag results" e))
        | .ok resultData =>
          ([Call.ticketTagByTicket ticketID],
           .ok (toolText ("Tags for ticket " ++ toString ticketID ++ " (" ++
             toString tags.length ++ " found):\n" ++ resultData)))

/-- `handleSearchTags` (`main.go:945-970`): one `TagSearch` client call; the
returned list is reported as-is (no client-side filtering, no full-collection
fetch). -/
def handleSearchTags (env : Env) (searchTerm : String) : List Call × ToolReturn :=
  if searchTerm = "" then
    ([], .ok (toolError "Missing required argument: search_term"))
  else
    match env.tagSearch searchTerm with
    | .error e =>
      ([Call.tagSearch searchTerm],
       .ok (toolErrorFromErr ("Failed to search tags with term '" ++ searchTerm ++ "'") e))
    | .ok tags =>
      if tags.length = 0 then
        ([Call.tagSearch searchTerm],
         .ok (toolText ("No tags found matching search term '" ++ searchTerm ++ "'")))
      else
        match env.marshalTags tags with
        | .error e =>
          ([Call.tagSearch searchTerm],
           .ok (toolErrorFromErr "Failed to format tag search results" e))
        | .ok resultData =>
          ([Call.tagSearch searchTerm],
           .ok (toolText ("Tags matching '" ++ searchTerm ++ "' (" ++ toString tags.length ++
             " found):\n" ++ resultData)))

/-- `handleListAllTags` (`main.go:922-942`): one typed `TagAdminList` client
call; no required arguments, so no validation. -/
def handleListAllTags (env : Env) : List Call × ToolReturn :=
  match env.tagAdminList with
  | .error e =>
    ([Call.tagAdminList], .ok (toolErrorFromErr "Failed to list all tags" e))
  | .ok tags =>
    if tags.length = 0 then
      ([Call.tagAdminList], .ok (toolText "No tags found in the system"))
    else
      match env.marshalTags tags with
      | .error e =>
        ([Call.tagAdminList], .ok (toolErrorFromErr "Failed to format tag list" e))
      | .ok resultData =>
        ([Call.tagAdminList],
         .ok (toolText ("All tags in system (" ++ toString tags.length ++ " found):\n" ++
           resultData)))

/-- `handleListTextModules` (`main.go:975-1024`): a raw GET of the text-module
collection with the manually attached auth headers; no required arguments, so
no validation. -/
def handleListTextModules (env : Env) : List Call × ToolReturn :=
  let rawCall := Call.rawHttp "GET" (env.client.url ++ "/api/v1/text_modules")
    (authHeader env.client) RawBody.empty
  match env.getTextModulesRaw with
  | .newReqError e =>
    ([], .ok (toolErrorFromErr "Failed to create request for text modules" e))
  | .doError e =>
    ([rawCall], .ok (toolErrorFromErr "Failed to fetch text modules" e))
  | .resp status bodyDec =>
    if status ≠ 200 then
      ([rawCall],
       .ok (toolError ("Failed to fetch text modules: HTTP " ++ toString status)))
    else
      match bodyDec with
      | .error e =>
        ([rawCall], .ok (toolErrorFromErr "Failed to decode text modules response" e))
      | .ok textModules =>
        if textModules.length = 0 then
          ([rawCall], .ok (toolText "No text modules found"))
        else
          match env.marshalTextModules textModules with
          | .error e =>
            ([rawCall], .ok (toolErrorFromErr "Failed to format text modules" e))
          | .ok resultData =>
            ([rawCall],
             .ok (toolText ("Text modules (" ++ toString textModules.length ++
               " found):\n" ++ resultData)))

/-- `handleGetTextModule` (`main.go:1027-1080`). -/
def handleGetTextModule (env : Env) (textModuleID : Int) : List Call × ToolReturn :=
  if textModuleID ≤ 0 then
    ([], .ok (toolError "Missing or invalid required argument: text_module_id (must be positive)"))
  else
    let rawCall := Call.rawHttp "GET"
      (env.client.url ++ "/api/v1/text_modules/" ++ toString textModuleID)
      (authHeader env.client) RawBody.empty
    match env.getTextModuleRaw textModuleID with
    | .newReqError e =>
      ([], .ok (toolErrorFromErr ("Failed to create request for text module " ++
        toString textModuleID) e))
    | .doError e =>
      ([rawCall],
       .ok (toolErrorFromErr ("Failed to fetch text module " ++ toString textModuleID) e))
    | .resp status bodyDec =>
      if status = 404 then
        ([rawCall], .ok (toolError ("Text module " ++ toString textModuleID ++ " not found")))
      else if status ≠ 200 then
        ([rawCall],
         .ok (toolError ("Failed to fetch text module " ++ toString textModuleID ++
           ": HTTP " ++ toString status)))
      else
        match bodyDec with
        | .error e =>
          ([rawCall],
           .ok (toolErrorFromErr ("Failed to decode text module " ++ toString textModuleID ++
             " response") e))
        | .ok textModule =>
          match env.marshalTextModule textModule with
          | .error e =>
            ([rawCall], .ok (toolErrorFromErr "Failed to format text module" e))
          | .ok resultData =>
            ([rawCall],
             .ok (toolText ("Text module " ++ toString textModuleID ++ ":\n" ++ resultData)))

/-- Byte string rendered back into a Go string for message interpolation (a Go
string is its bytes, so this is the identity at the Go level). -/
def strOfBytes (b : List Nat) : String :=
  String.mk (b.map Char.ofNat)

/-- The per-module match test of the search filter (`main.go:1131-1133`):
name, keywords or content contains the term, case-insensitively. -/
def textModuleMatches (searchTerm : List Nat) (module : TextModule) : Bool :=
  containsIgnoreCase module.name searchTerm ||
  containsIgnoreCase module.keywords searchTerm ||
  containsIgnoreCase module.content searchTerm

/-- The client-side filter loop of `handleSearchTextModules`
(`main.go:1128-1136`): keep, in order, the modules that match. -/
def filterTextModules (allTextModules : List TextModule) (searchTerm : List Nat) :
    List TextModule :=
  allTextModules.filter (textModuleMatches searchTerm)

/-- `handleSearchTextModules` (`main.go:1083-1149`): validate (empty
`search_term` is rejected before anything else), fetch all text modules via a
raw GET, filter client-side, report. -/
def handleSearchTextModules (env : Env) (searchTerm : List Nat) : List Call × ToolReturn :=
  if searchTerm = [] then
    ([], .ok (toolError "Missing required argument: search_term"))
  else
    let rawCall := Call.rawHttp "GET" (env.client.url ++ "/api/v1/text_modules")
      (authHeader env.client) RawBody.empty
    match env.getTextModulesRaw with
    | .newReqError e =>
      ([], .ok (toolErrorFromErr "Failed to create request for text modules search" e))
    | .doError e =>
      ([rawCall], .ok (toolErrorFromErr "Failed to fetch text modules for search" e))
    | .resp status bodyDec =>
      if status ≠ 200 then
        ([rawCall],
         .ok (toolError ("Failed to fetch text modules for search: HTTP " ++ toString status)))
      else
        match bodyDec with
        | .error e =>
          ([rawCall], .ok (toolErrorFromErr "Failed to decode text modules search response" e))
        | .ok allTextModules =>
          let matchingModules := filterTextModules allTextModules searchTerm
          if matchingModules.length = 0 then
            ([rawCall],
             .ok (toolText ("No text modules found matching search term '" ++
               strOfBytes searchTerm ++ "'")))
          else
            match env.marshalTextModules matchingModules with
            | .error e =>
              ([rawCall],
               .ok (toolErrorFromErr "Failed to format text modules search results" e))
            | .ok resultData =>
              ([rawCall],
               .ok (toolText ("Text modules matching '" ++ strOfBytes searchTerm ++ "' (" ++
                 toString matchingModules.length ++ " found):\n" ++ resultData)))

/-! ## Concrete environments for witnesses and counterexamples -/

/-- A base environment: token-authenticated client, every backend oracle
failing, every marshal oracle succeeding with a fixed JSON text.  Concrete
scenarios override individual fields. -/
def baseEnv : Env where
  client := { url := "https://zammad.example", token := "tok" }
  ticketShow := fun _ => .error "unavailable"
  ticketCreate := fun _ => .error "unavailable"
  ticketArticleCreate := fun _ => .error "unavailable"
  ticketSearch := fun _ _ => .error "unavailable"
  userShow := fun _ => .error "unavailable"
  userSearch := fun _ _ => .error "unavailable"
  ticketArticleByTicket := fun _ => .error "unavailable"
  ticketTagByTicket := fun _ => .error "unavailable"
  tagSearch := fun _ => .error "unavailable"
  tagAdminList := .error "unavailable"
  putTicket := fun _ _ => .doError "unavailable"
  getUserExtended := fun _ => .doError "unavailable"
  postTagAdd := fun _ _ => .doError "unavailable"
  getTextModulesRaw := .doError "unavailable"
  getTextModuleRaw := fun _ => .doError "unavailable"
  marshalTicket := fun _ => .ok "{}"
  marshalTickets := fun _ => .ok "[]"
  marshalArticle := fun _ => .ok "{}"
  marshalArticles := fun _ => .ok "[]"
  marshalUserData := fun _ => .ok "{}"
  marshalUsers := fun _ => .ok "[]"
  marshalTags := fun _ => .ok "[]"
  marshalTextModule := fun _ => .ok "{}"
  marshalTextModules := fun _ => .ok "[]"

/-- Close-ticket scenario: the PUT succeeds (HTTP 200, ticket decodes), the
subsequent note creation fails. -/
def envCloseNoteFails : Env :=
  { baseEnv with
    putTicket := fun _ _ => .resp 200 (.ok { id := 1, state := "closed" })
    ticketArticleCreate := fun _ => .error "boom"
    marshalTicket := fun _ => .ok "TICKETJSON" }

/-- Same scenario but the note creation succeeds. -/
def envCloseNoteOk : Env :=
  { envCloseNoteFails with ticketArticleCreate := fun a => .ok a }

/-- Reply scenario: ticket 42 exists with title `"Printer jam"`; article
creation succeeds. -/
def envReply : Env :=
  { baseEnv with
    ticketShow := fun _ => .ok { id := 42, title := "Printer jam" }
    ticketArticleCreate := fun a => .ok a }

/-- Add-tag scenario: the tag-add POST returns HTTP 201, but the verification
read returns a tag list not containing the new tag. -/
def envTagAbsent : Env :=
  { baseEnv with
    postTagAdd := fun _ _ => .resp 201 (.ok "{}")
    ticketTagByTicket := fun _ => .ok [{ id := 3, name := "other" }] }

/-- Tag-search scenario: the backend search call returns one tag whose name
does not contain the query. -/
def envTagSearch : Env :=
  { baseEnv with
    tagSearch := fun _ => .ok [{ id := 7, name := "zzz" }]
    marshalTags := fun _ => .ok "TAGSJSON" }

/-- Marshal-failure scenario: backend reads succeed, every JSON encoding
fails. -/
def envMarshalFails : Env :=
  { baseEnv with
    ticketShow := fun _ => .ok { id := 1, title := "T" }
    ticketCreate := fun t => .ok { t with id := 5 }
    ticketSearch := fun _ _ => .ok [{ id := 1, title := "T" }]
    marshalTicket := fun _ => .error "encode fail"
    marshalTickets := fun _ => .error "encode fail" }

/-- A client with all three credential kinds configured at once. -/
def clientAll : ZClient :=
  { url := "u", username := "alice", password := "pw", token := "tok", oauth := "oa" }

/-- Text-module scenario: the backend holds one module; used to show the
empty-term search never reaches it. -/
def envTextModules : Env :=
  { baseEnv with
    getTextModulesRaw := .resp 200 (.ok [{ id := 1, name := [104, 105] }]) }

/-!
# Theorems

First the general lemmas about the byte-level search helpers, then one
theorem (plus witness / counterexample as required) per claim C1–C10.
-/

/-- A list occurs contiguously inside another exactly when it can be read off
at some offset `i` by `drop`/`take`. -/
theorem occursAt_iff (l₁ l₂ : List Nat) :
    l₁ <:+: l₂ ↔ ∃ i, i + l₁.length ≤ l₂.length ∧ (l₂.drop i).take l₁.length = l₁ := by
  constructor
  · rintro ⟨s, t, rfl⟩
    refine ⟨s.length, ?_, ?_⟩
    · simp only [List.length_append]
      omega
    · rw [List.append_assoc, List.drop_left, List.take_left]
  · rintro ⟨i, hle, heq⟩
    refine ⟨l₂.take i, l₂.drop (i + l₁.length), ?_⟩
    calc l₂.take i ++ l₁ ++ l₂.drop (i + l₁.length)
        = l₂.take i ++ ((l₂.drop i).take l₁.length ++ (l₂.drop i).drop l₁.length) := by
          rw [heq, List.drop_drop, List.append_assoc]
      _ = l₂.take i ++ l₂.drop i := by rw [List.take_append_drop]
      _ = l₂ := List.take_append_drop i l₂

/-- `containsIgnoreCase s q` is `true` exactly when the byte-lowered form of
`q` occurs as a contiguous substring of the byte-lowered form of `s`. -/
theorem containsIgnoreCase_iff (s q : List Nat) :
    containsIgnoreCase s q = true ↔ toLower q <:+: toLower s := by
  unfold containsIgnoreCase
  by_cases h0 : q.length = 0
  · have : q = [] := List.length_eq_zero.mp h0
    subst this
    simp [toLower]
  · rw [if_neg h0]
    by_cases hlt : s.length < q.length
    · rw [if_pos hlt]
      simp only [Bool.false_eq_true, false_iff]
      intro hin
      have hlen := hin.length_le
      simp only [toLower, List.length_map] at hlen
      omega
    · rw [if_neg hlt]
      simp only [List.any_eq_true, List.mem_range, decide_eq_true_eq]
      rw [occursAt_iff]
      constructor
      · rintro ⟨i, hi, heq⟩
        refine ⟨i, ?_, heq⟩
        simp only [toLower, List.length_map] at hi ⊢
        omega
      · rintro ⟨i, hi, heq⟩
        refine ⟨i, ?_, heq⟩
        simp only [toLower, List.length_map] at hi ⊢
        omega

/-- `toLower` fixes any byte string containing no ASCII uppercase byte. -/
theorem toLower_eq_self_of_no_upper (s : List Nat)
    (h : ∀ b ∈ s, ¬(65 ≤ b ∧ b ≤ 90)) : toLower s = s := by
  induction s with
  | nil => rfl
  | cons b bs ih =>
    have hb : ¬(65 ≤ b ∧ b ≤ 90) := h b (List.mem_cons_self b bs)
    have hrest := ih (fun x hx => h x (List.mem_cons_of_mem b hx))
    simp only [toLower, List.map_cons] at hrest ⊢
    rw [hrest]
    unfold toLowerByte
    rw [if_neg hb]

/-- An empty needle always matches. -/
theorem containsIgnoreCase_nil (s : List Nat) : containsIgnoreCase s [] = true := rfl

/-- With an empty term, the text-module filter keeps every module. -/
theorem filterTextModules_nil (mods : List TextModule) :
    filterTextModules mods [] = mods := by
  unfold filterTextModules
  induction mods with
  | nil => rfl
  | cons m ms ih =>
    simp only [List.filter_cons]
    rw [if_pos]
    · rw [ih]
    · unfold textModuleMatches
      simp [containsIgnoreCase_nil]

/-- **C5** — `containsIgnoreCase s q` returns `true` iff the lowercased form
of `q` (the program's own byte-wise lowering) occurs as a contiguous substring
of the lowercased form of `s`; `"HELLO"` matches content
`"say hello world"`; and a text module passes the `search_text_modules`
filter exactly when its name, keywords, or content contains the search term
case-insensitively. -/
theorem C5_containsIgnoreCase_spec :
    (∀ s q : List Nat, containsIgnoreCase s q = true ↔ toLower q <:+: toLower s)
    ∧ containsIgnoreCase (ascii "say hello world") (ascii "HELLO") = true
    ∧ (∀ (mods : List TextModule) (term : List Nat) (m : TextModule),
        m ∈ filterTextModules mods term ↔
          m ∈ mods ∧ (containsIgnoreCase m.name term = true ∨
                      containsIgnoreCase m.keywords term = true ∨
                      containsIgnoreCase m.content term = true)) := by
  refine ⟨containsIgnoreCase_iff, by decide, ?_⟩
  intro mods term m
  unfold filterTextModules
  rw [List.mem_filter]
  unfold textModuleMatches
  simp only [Bool.or_eq_true]
  tauto

/-- **C10** — case-insensitive matching is ASCII-only: `toLower` adds 32 to
the bytes 65–90 (`'A'`–`'Z'`) and fixes every other byte, so a byte string
with no ASCII uppercase byte is left unchanged, and the UTF-8 encodings of
`'É'` (`[195,137]`) and `'é'` (`[195,169]`) are not matched to each other by
`containsIgnoreCase` in either direction. -/
theorem C10_toLower_ascii_only :
    (∀ b : Nat, ¬(65 ≤ b ∧ b ≤ 90) → toLowerByte b = b)
    ∧ (∀ b : Nat, 65 ≤ b → b ≤ 90 → toLowerByte b = b + 32)
    ∧ (∀ s : List Nat, (∀ b ∈ s, ¬(65 ≤ b ∧ b ≤ 90)) → toLower s = s)
    ∧ containsIgnoreCase [195, 137] [195, 169] = false
    ∧ containsIgnoreCase [195, 169] [195, 137] = false := by
  refine ⟨?_, ?_, toLower_eq_self_of_no_upper, by decide, by decide⟩
  · intro b hb
    unfold toLowerByte
    rw [if_neg hb]
  · intro b h1 h2
    unfold toLowerByte
    rw [if_pos ⟨h1, h2⟩]

/-- Witness for C10 at concrete bytes: 100 (`'d'`) is fixed, 66 (`'B'`) maps
to 98 (`'b'`), and the non-ASCII byte string `[195,169]` is fixed. -/
theorem C10_witness :
    toLowerByte 100 = 100 ∧ toLowerByte 66 = 98 ∧ toLower [195, 169] = [195, 169] :=
  ⟨C10_toLower_ascii_only.1 100 (by decide),
   C10_toLower_ascii_only.2.1 66 (by decide) (by decide),
   C10_toLower_ascii_only.2.2.1 [195, 169] (by decide)⟩

/-- **C4 counterexample** — `search_text_modules` with an empty `search_term`
does **not** match everything: against a backend holding a (nonempty) module
collection it performs zero backend calls and returns a validation error
result, not the module list. -/
theorem C4_counterexample :
    handleSearchTextModules envTextModules [] =
      ([], .ok (toolError "Missing required argument: search_term")) := rfl

/-- **C4 (amended)** — `search_text_modules` rejects an empty `search_term`
with a validation-error tool result before any backend call; the underlying
containment helper does treat an empty query as matching everything (so the
all-match behaviour exists in the filter, which is unreachable for an empty
term because validation rejects it first). -/
theorem C4_empty_search_term :
    (∀ env : Env, handleSearchTextModules env [] =
      ([], .ok (toolError "Missing required argument: search_term")))
    ∧ (∀ s : List Nat, containsIgnoreCase s [] = true)
    ∧ (∀ mods : List TextModule, filterTextModules mods [] = mods) :=
  ⟨fun _ => rfl, containsIgnoreCase_nil, filterTextModules_nil⟩

/-- **C3** — with a positive `ticket_id`, a nonempty `body` and no subject,
`reply_to_ticket` issues exactly one get-ticket call and then attempts exactly
one article creation, the article being email-type with subject
`"Re: " ++ title`, sender `"Agent"` and content type `"text/html"`; with a
nonempty subject the trace is just the article creation — no get-ticket
call. -/
theorem C3_reply_subject_derivation :
    (∀ (env : Env) (id : Int) (body to_ cc : String) (internal : Bool) (t : Ticket),
      0 < id → body ≠ "" → env.ticketShow id = .ok t →
      (handleReplyToTicket env id body to_ cc "" internal).1 =
        [Call.ticketShow id,
         Call.ticketArticleCreate
           { ticketID := id, body := body, type := "email", sender := "Agent",
             subject := "Re: " ++ t.title, to_ := to_, cc := cc, internal := internal,
             contentType := "text/html" }])
    ∧ (∀ (env : Env) (id : Int) (body to_ cc subject : String) (internal : Bool),
      0 < id → body ≠ "" → subject ≠ "" →
      (handleReplyToTicket env id body to_ cc subject internal).1 =
        [Call.ticketArticleCreate
           { ticketID := id, body := body, type := "email", sender := "Agent",
             subject := subject, to_ := to_, cc := cc, internal := internal,
             contentType := "text/html" }]) := by
  constructor
  · intro env id body to_ cc internal t hid hbody hshow
    have hval : ¬(id ≤ 0 ∨ body = "") := by
      push_neg
      exact ⟨by omega, hbody⟩
    rcases hc : env.ticketArticleCreate
        { ticketID := id, body := body, type := "email", sender := "Agent",
          subject := "Re: " ++ t.title, to_ := to_, cc := cc, internal := internal,
          contentType := "text/html" } with e | a <;>
      simp [handleReplyToTicket, replyCreateArticle, hval, hshow, hc]
  · intro env id body to_ cc subject internal hid hbody hsubj
    have hval : ¬(id ≤ 0 ∨ body = "") := by
      push_neg
      exact ⟨by omega, hbody⟩
    rcases hc : env.ticketArticleCreate
        { ticketID := id, body := body, type := "email", sender := "Agent",
          subject := subject, to_ := to_, cc := cc, internal := internal,
          contentType := "text/html" } with e | a <;>
      simp [handleReplyToTicket, replyCreateArticle, hval, hsubj, hc]

/-- Witness for C3: ticket 42 is titled `"Printer jam"`; without a subject the
trace is get-ticket then an email article with subject `"Re: Printer jam"`;
with subject `"mySubj"` there is no get-ticket call. -/
theorem C3_witness :
    (handleReplyToTicket envReply 42 "hello" "" "" "" false).1 =
      [Call.ticketShow 42,
       Call.ticketArticleCreate
         { ticketID := 42, body := "hello", type := "email", sender := "Agent",
           subject := "Re: Printer jam", contentType := "text/html" }]
    ∧ (handleReplyToTicket envReply 42 "hello" "" "" "mySubj" false).1 =
      [Call.ticketArticleCreate
         { ticketID := 42, body := "hello", type := "email", sender := "Agent",
           subject := "mySubj", contentType := "text/html" }] :=
  ⟨C3_reply_subject_derivation.1 envReply 42 "hello" "" "" false
     { id := 42, title := "Printer jam" } (by decide) (by decide) rfl,
   C3_reply_subject_derivation.2 envReply 42 "hello" "" "" "mySubj" false
     (by decide) (by decide) (by decide)⟩

/-- **C7** — every tool handler with a required numeric id rejects `id ≤ 0`,
and every tool handler with a required string rejects the empty string, with
a tool-level error result naming the field(s) and an empty backend-call
trace. -/
theorem C7_validation_zero_backend_calls :
    (∀ (env : Env) (title group customer body articleType : String) (internal : Bool),
      title = "" ∨ group = "" ∨ customer = "" ∨ body = "" →
      handleCreateTicket env title group customer body articleType internal =
        ([], .ok (toolError "Missing required arguments: title, group, customer, body")))
    ∧ (∀ (env : Env) (query : String) (limit : Int), query = "" →
      handleSearchTickets env query limit =
        ([], .ok (toolError "Missing required argument: query")))
    ∧ (∀ (env : Env) (id : Int) (body : String) (internal : Bool),
      id ≤ 0 ∨ body = "" →
      handleAddNoteToTicket env id body internal =
        ([], .ok (toolError "Missing or invalid required arguments: ticket_id, body")))
    ∧ (∀ (env : Env) (id : Int) (body to_ cc subject : String) (internal : Bool),
      id ≤ 0 ∨ body = "" →
      handleReplyToTicket env id body to_ cc subject internal =
        ([], .ok (toolError "Missing or invalid required arguments: ticket_id, body")))
    ∧ (∀ (env : Env) (id : Int), id ≤ 0 →
      handleGetTicket env id =
        ([], .ok (toolError "Missing or invalid required argument: ticket_id (must be a positive number)")))
    ∧ (∀ (env : Env) (id : Int) (ext : Bool), id ≤ 0 →
      handleGetUser env id ext =
        ([], .ok (toolError "Missing or invalid required argument: user_id (must be a positive number)")))
    ∧ (∀ (env : Env) (query : String) (limit : Int), query = "" →
      handleSearchUsers env query limit =
        ([], .ok (toolError "Missing required argument: query")))
    ∧ (∀ (env : Env) (id : Int), id ≤ 0 →
      handleGetTicketArticles env id =
        ([], .ok (toolError "Missing or invalid required argument: ticket_id (must be a positive number)")))
    ∧ (∀ (env : Env) (id : Int) (note : String), id ≤ 0 →
      handleCloseTicket env id note =
        ([], [], .ok (toolError "Missing or invalid required argument: ticket_id (must be a positive number)")))
    ∧ (∀ (env : Env) (id agentID : Int) (note : String), id ≤ 0 ∨ agentID ≤ 0 →
      handleAssignTicket env id agentID note =
        ([], [], .ok (toolError "Missing or invalid required arguments: ticket_id and agent_id (both must be positive numbers)")))
    ∧ (∀ (env : Env) (id : Int) (tagName : String), id ≤ 0 ∨ tagName = "" →
      handleAddTagToTicket env id tagName =
        ([], .ok (toolError "Missing or invalid required arguments: ticket_id (must be positive) and tag_name (must not be empty)")))
    ∧ (∀ (env : Env) (id : Int), id ≤ 0 →
      handleGetTicketTags env id =
        ([], .ok (toolError "Missing or invalid required argument: ticket_id (must be positive)")))
    ∧ (∀ (env : Env) (term : String), term = "" →
      handleSearchTags env term =
        ([], .ok (toolError "Missing required argument: search_term")))
    ∧ (∀ (env : Env) (id : Int), id ≤ 0 →
      handleGetTextModule env id =
        ([], .ok (toolError "Missing or invalid required argument: text_module_id (must be positive)")))
    ∧ (∀ (env : Env) (term : List Nat), term = [] →
      handleSearchTextModules env term =
        ([], .ok (toolError "Missing required argument: search_term"))) := by
  refine ⟨?_, ?_, ?_, ?_, ?_, ?_, ?_, ?_, ?_, ?_, ?_, ?_, ?_, ?_, ?_⟩
  · intro env title group customer body articleType internal h
    unfold handleCreateTicket
    rw [if_pos h]
  · intro env query limit h
    unfold handleSearchTickets
    rw [if_pos h]
  · intro env id body internal h
    unfold handleAddNoteToTicket
    rw [if_pos h]
  · intro env id body to_ cc subject internal h
    unfold handleReplyToTicket
    rw [if_pos h]
  · intro env id h
    unfold handleGetTicket
    rw [if_pos h]
  · intro env id ext h
    unfold handleGetUser
    rw [if_pos h]
  · intro env query limit h
    unfold handleSearchUsers
    rw [if_pos h]
  · intro env id h
    unfold handleGetTicketArticles
    rw [if_pos h]
  · intro env id note h
    unfold handleCloseTicket
    rw [if_pos h]
  · intro env id agentID note h
    unfold handleAssignTicket
    rw [if_pos h]
  · intro env id tagName h
    unfold handleAddTagToTicket
    rw [if_pos h]
  · intro env id h
    unfold handleGetTicketTags
    rw [if_pos h]
  · intro env term h
    unfold handleSearchTags
    rw [if_pos h]
  · intro env id h
    unfold handleGetTextModule
    rw [if_pos h]
  · intro env term h
    unfold handleSearchTextModules
    rw [if_pos h]

/-- Witness for C7: each handler with a required field, invoked at a concrete
invalid input against a concrete backend, returns its validation error with an
empty call trace. -/
theorem C7_witness :
    handleCreateTicket baseEnv "" "g" "c" "b" "note" false =
      ([], .ok (toolError "Missing required arguments: title, group, customer, body"))
    ∧ handleSearchTickets baseEnv "" 50 =
      ([], .ok (toolError "Missing required argument: query"))
    ∧ handleAddNoteToTicket baseEnv 0 "b" true =
      ([], .ok (toolError "Missing or invalid required arguments: ticket_id, body"))
    ∧ handleReplyToTicket baseEnv (-1) "b" "" "" "" false =
      ([], .ok (toolError "Missing or invalid required arguments: ticket_id, body"))
    ∧ handleGetTicket baseEnv 0 =
      ([], .ok (toolError "Missing or invalid required argument: ticket_id (must be a positive number)"))
    ∧ handleGetUser baseEnv 0 false =
      ([], .ok (toolError "Missing or invalid required argument: user_id (must be a positive number)"))
    ∧ handleSearchUsers baseEnv "" 50 =
      ([], .ok (toolError "Missing required argument: query"))
    ∧ handleGetTicketArticles baseEnv (-2) =
      ([], .ok (toolError "Missing or invalid required argument: ticket_id (must be a positive number)"))
    ∧ handleCloseTicket baseEnv 0 "n" =
      ([], [], .ok (toolError "Missing or invalid required argument: ticket_id (must be a positive number)"))
    ∧ handleAssignTicket baseEnv 1 0 "" =
      ([], [], .ok (toolError "Missing or invalid required arguments: ticket_id and agent_id (both must be positive numbers)"))
    ∧ handleAddTagToTicket baseEnv 1 "" =
      ([], .ok (toolError "Missing or invalid required arguments: ticket_id (must be positive) and tag_name (must not be empty)"))
    ∧ handleGetTicketTags baseEnv 0 =
      ([], .ok (toolError "Missing or invalid required argument: ticket_id (must be positive)"))
    ∧ handleSearchTags baseEnv "" =
      ([], .ok (toolError "Missing required argument: search_term"))
    ∧ handleGetTextModule baseEnv 0 =
      ([], .ok (toolError "Missing or invalid required argument: text_module_id (must be positive)"))
    ∧ handleSearchTextModules baseEnv [] =
      ([], .ok (toolError "Missing required argument: search_term")) := by
  have h := C7_validation_zero_backend_calls
  exact ⟨h.1 baseEnv "" "g" "c" "b" "note" false (Or.inl rfl),
    h.2.1 baseEnv "" 50 rfl,
    h.2.2.1 baseEnv 0 "b" true (Or.inl (by decide)),
    h.2.2.2.1 baseEnv (-1) "b" "" "" "" false (Or.inl (by decide)),
    h.2.2.2.2.1 baseEnv 0 (by decide),
    h.2.2.2.2.2.1 baseEnv 0 false (by decide),
    h.2.2.2.2.2.2.1 baseEnv "" 50 rfl,
    h.2.2.2.2.2.2.2.1 baseEnv (-2) (by decide),
    h.2.2.2.2.2.2.2.2.1 baseEnv 0 "n" (by decide),
    h.2.2.2.2.2.2.2.2.2.1 baseEnv 1 0 "" (Or.inr (by decide)),
    h.2.2.2.2.2.2.2.2.2.2.1 baseEnv 1 "" (Or.inr rfl),
    h.2.2.2.2.2.2.2.2.2.2.2.1 baseEnv 0 (by decide),
    h.2.2.2.2.2.2.2.2.2.2.2.2.1 baseEnv "" rfl,
    h.2.2.2.2.2.2.2.2.2.2.2.2.2.1 baseEnv 0 (by decide),
    h.2.2.2.2.2.2.2.2.2.2.2.2.2.2 baseEnv [] rfl⟩

/-- **C1 counterexample** — the claim says the success result carries "a
warning indication that the note failed".  It does not: when the PUT succeeds
and the note creation fails, the returned result is byte-identical to the
result of the run where the note creation succeeds, so it carries no
indication of the note failure at all — the warning goes only to the log
(third conjunct), and the note-success run logs a different line (fourth). -/
theorem C1_counterexample :
    (handleCloseTicket envCloseNoteFails 1 "done").2.2 =
      .ok (toolText "Ticket 1 closed successfully:\nTICKETJSON")
    ∧ (handleCloseTicket envCloseNoteFails 1 "done").2.2 =
      (handleCloseTicket envCloseNoteOk 1 "done").2.2
    ∧ (handleCloseTicket envCloseNoteFails 1 "done").2.1 =
      ["Warning: Ticket 1 closed successfully, but failed to add closing note: boom"]
    ∧ (handleCloseTicket envCloseNoteOk 1 "done").2.1 =
      ["Added closing note (Article ID 0) to ticket ID 1"] := by
  refine ⟨?_, ?_, ?_, ?_⟩ <;> rfl

/-- **C1 (amended)** — for `close_ticket` with a positive id and a nonempty
note, if the state-update PUT succeeds but the note creation fails, the
handler still returns a success result (not a tool error) containing the
ticket's new state, and never rolls back or fails the operation; the warning
that the note failed appears only in the server log, not in the returned
result. -/
theorem C1_close_partial_failure (env : Env) (id : Int) (note : String) (t : Ticket)
    (e : String)
    (h1 : 0 < id) (h2 : note ≠ "")
    (h3 : env.putTicket id UpdateData.stateClosed = .resp 200 (.ok t))
    (h4 : env.ticketArticleCreate (closingNoteArticle id note) = .error e) :
    (handleCloseTicket env id note).2.2 =
      .ok (toolText ("Ticket " ++ toString id ++ " closed successfully:\n" ++
        marshalDiscard (env.marshalTicket t)))
    ∧ (handleCloseTicket env id note).2.1 =
      ["Warning: Ticket " ++ toString id ++
       " closed successfully, but failed to add closing note: " ++ e]
    ∧ (handleCloseTicket env id note).1 =
      [Call.rawHttp "PUT" (env.client.url ++ "/api/v1/tickets/" ++ toString id)
         (authHeader env.client) (RawBody.update UpdateData.stateClosed),
       Call.ticketArticleCreate (closingNoteArticle id note)] := by
  have hval : ¬(id ≤ 0) := by omega
  refine ⟨?_, ?_, ?_⟩ <;>
    simp [handleCloseTicket, hval, h2, h3, h4]

/-- Witness for C1 at the concrete failing-note scenario. -/
theorem C1_witness :
    (handleCloseTicket envCloseNoteFails 1 "done").2.2 =
      .ok (toolText "Ticket 1 closed successfully:\nTICKETJSON")
    ∧ (handleCloseTicket envCloseNoteFails 1 "done").2.1 =
      ["Warning: Ticket 1 closed successfully, but failed to add closing note: boom"] := by
  have h := C1_close_partial_failure envCloseNoteFails 1 "done"
    { id := 1, state := "closed" } "boom" (by decide) (by decide) rfl rfl
  exact ⟨h.1, h.2.1⟩

/-- **C2** — whenever the tag-association POST reports success (HTTP 201 or
200) for valid arguments, `add_tag_to_ticket` returns a non-error text result
in each of the three verification outcomes (which exhaust the behaviour of the
verification read): verification read fails, tag found, tag absent. -/
theorem C2_add_tag_verification (env : Env) (id : Int) (tagName : String)
    (status : Nat) (bodyDec : Except String String)
    (h1 : 0 < id) (h2 : tagName ≠ "") (h3 : tagName.utf8ByteSize ≤ 100)
    (hpost : env.postTagAdd id tagName = .resp status bodyDec)
    (hok : status = 201 ∨ status = 200) :
    (∀ e, env.ticketTagByTicket id = .error e →
      (handleAddTagToTicket env id tagName).2 =
        .ok (toolText ("Tag '" ++ tagName ++ "' added to ticket " ++ toString id ++
          " (verification failed: " ++ e ++ ")")))
    ∧ (∀ tags, env.ticketTagByTicket id = .ok tags →
        (tags.any fun tag => tag.name == tagName) = true →
        (handleAddTagToTicket env id tagName).2 =
          .ok (toolText ("Tag '" ++ tagName ++ "' successfully added to ticket " ++
            toString id ++ " (verified)")))
    ∧ (∀ tags, env.ticketTagByTicket id = .ok tags →
        (tags.any fun tag => tag.name == tagName) = false →
        (handleAddTagToTicket env id tagName).2 =
          .ok (toolText ("Tag '" ++ tagName ++ "' added to ticket " ++ toString id ++
            " (not found in verification - may need time to propagate)"))) := by
  have hval : ¬(id ≤ 0 ∨ tagName = "") := by
    push_neg
    exact ⟨by omega, h2⟩
  have hlen : ¬(100 < tagName.utf8ByteSize) := by omega
  refine ⟨?_, ?_, ?_⟩
  · intro e he
    rcases hok with h | h <;> subst h <;>
      simp [handleAddTagToTicket, hval, hlen, hpost, he]
  · intro tags ht hfound
    rcases hok with h | h <;> subst h <;>
      simp [handleAddTagToTicket, hval, hlen, hpost, ht, hfound]
  · intro tags ht hfound
    rcases hok with h | h <;> subst h <;>
      simp [handleAddTagToTicket, hval, hlen, hpost, ht, hfound]

/-- Witness for C2: the POST returns 201 but the verification list does not
contain the tag; the handler still reports success (non-error text). -/
theorem C2_witness :
    (handleAddTagToTicket envTagAbsent 1 "urgent").2 =
      .ok (toolText "Tag 'urgent' added to ticket 1 (not found in verification - may need time to propagate)") := by
  have h := C2_add_tag_verification envTagAbsent 1 "urgent" 201 (.ok "{}")
    (by decide) (by decide) (by decide) rfl (Or.inl rfl)
  exact h.2.2 [{ id := 3, name := "other" }] rfl (by decide)

/-- **C6 counterexample** — `search_tags` is not client-side: against a
backend whose tag-search call returns a tag named `"zzz"` for the query
`"abc"`, the handler issues exactly one backend `TagSearch` call (no
full-collection fetch) and reports that tag even though its name does not
contain the query — so it neither fetched the full collection nor filtered by
name containment. -/
theorem C6_counterexample :
    handleSearchTags envTagSearch "abc" =
      ([Call.tagSearch "abc"], .ok (toolText "Tags matching 'abc' (1 found):\nTAGSJSON"))
    ∧ containsIgnoreCase (ascii "zzz") (ascii "abc") = false :=
  ⟨rfl, by decide⟩

/-- **C6 (amended)** — tag search is delegated to the backend client's
tag-search call: for a nonempty term the handler issues exactly the single
backend call `TagSearch term` (never a full-collection fetch), and on success
reports the backend's returned entries as-is, with no client-side
filtering. -/
theorem C6_search_tags_delegates (env : Env) (searchTerm : String)
    (h : searchTerm ≠ "") :
    (handleSearchTags env searchTerm).1 = [Call.tagSearch searchTerm]
    ∧ (∀ tags s, env.tagSearch searchTerm = .ok tags → tags.length ≠ 0 →
        env.marshalTags tags = .ok s →
        (handleSearchTags env searchTerm).2 =
          .ok (toolText ("Tags matching '" ++ searchTerm ++ "' (" ++
            toString tags.length ++ " found):\n" ++ s))) := by
  constructor
  · rcases ht : env.tagSearch searchTerm with e | tags
    · simp [handleSearchTags, h, ht]
    · rcases hm : env.marshalTags tags with e | s <;> by_cases hl : tags.length = 0 <;>
        simp [handleSearchTags, h, ht, hm, hl]
  · intro tags s ht hl hm
    simp [handleSearchTags, h, ht, hl, hm]

/-- Witness for C6 at the concrete scenario of the counterexample. -/
theorem C6_witness :
    (handleSearchTags envTagSearch "abc").1 = [Call.tagSearch "abc"]
    ∧ (handleSearchTags envTagSearch "abc").2 =
      .ok (toolText "Tags matching 'abc' (1 found):\nTAGSJSON") := by
  have h := C6_search_tags_delegates envTagSearch "abc" (by decide)
  exact ⟨h.1, h.2 [{ id := 7, name := "zzz" }] "TAGSJSON" rfl (by decide) rfl⟩

/-- **C8 counterexample** — the claim says basic auth takes priority over the
token, which takes priority over OAuth.  The opposite holds: each of the
three sequential `if`s overwrites the single `Authorization` header, so with
all three credential kinds configured the effective header is the OAuth
bearer, not basic auth; with OAuth empty it is the token. -/
theorem C8_counterexample :
    authHeader clientAll = some (AuthValue.bearer "oa")
    ∧ authHeader clientAll ≠ some (AuthValue.basic "alice" "pw")
    ∧ authHeader { clientAll with oauth := "" } = some (AuthValue.token "tok") :=
  ⟨rfl, by decide, rfl⟩

/-- **C8 (amended)** — every raw HTTP call built by a handler (the close,
assign, add-tag, extended-get-user, get-text-module, search-text-modules and
list-text-modules flows — all raw-request sites in the source) carries
exactly the header produced by the shared three-`if` sequence, and that
sequence makes exactly one credential effective with the precedence
OAuth > token > basic auth (the last header write wins): OAuth bearer if
OAuth is set, else the token header if the token is set, else basic auth if
username and password are both set, else no header. -/
theorem C8_auth_precedence :
    (∀ c : ZClient, c.oauth ≠ "" → authHeader c = some (AuthValue.bearer c.oauth))
    ∧ (∀ c : ZClient, c.oauth = "" → c.token ≠ "" →
        authHeader c = some (AuthValue.token c.token))
    ∧ (∀ c : ZClient, c.oauth = "" → c.token = "" → c.username ≠ "" → c.password ≠ "" →
        authHeader c = some (AuthValue.basic c.username c.password))
    ∧ (∀ c : ZClient, c.oauth = "" → c.token = "" →
        (c.username = "" ∨ c.password = "") → authHeader c = none)
    ∧ (∀ (env : Env) (id : Int) (note m p : String) (a : Option AuthValue) (b : RawBody),
        Call.rawHttp m p a b ∈ (handleCloseTicket env id note).1 →
        a = authHeader env.client)
    ∧ (∀ (env : Env) (id agentID : Int) (note m p : String) (a : Option AuthValue)
        (b : RawBody),
        Call.rawHttp m p a b ∈ (handleAssignTicket env id agentID note).1 →
        a = authHeader env.client)
    ∧ (∀ (env : Env) (id : Int) (tagName m p : String) (a : Option AuthValue) (b : RawBody),
        Call.rawHttp m p a b ∈ (handleAddTagToTicket env id tagName).1 →
        a = authHeader env.client)
    ∧ (∀ (env : Env) (id : Int) (ext : Bool) (m p : String) (a : Option AuthValue)
        (b : RawBody),
        Call.rawHttp m p a b ∈ (handleGetUser env id ext).1 →
        a = authHeader env.client)
    ∧ (∀ (env : Env) (id : Int) (m p : String) (a : Option AuthValue) (b : RawBody),
        Call.rawHttp m p a b ∈ (handleGetTextModule env id).1 →
        a = authHeader env.client)
    ∧ (∀ (env : Env) (term : List Nat) (m p : String) (a : Option AuthValue) (b : RawBody),
        Call.rawHttp m p a b ∈ (handleSearchTextModules env term).1 →
        a = authHeader env.client)
    ∧ (∀ (env : Env) (m p : String) (a : Option AuthValue) (b : RawBody),
        Call.rawHttp m p a b ∈ (handleListTextModules env).1 →
        a = authHeader env.client) := by
  refine ⟨?_, ?_, ?_, ?_, ?_, ?_, ?_, ?_, ?_, ?_, ?_⟩
  · intro c h
    simp only [authHeader, applyAuthHeaders]
    rw [if_pos h]
  · intro c h1 h2
    simp only [authHeader, applyAuthHeaders]
    rw [if_neg (fun hne => hne h1), if_pos h2]
  · intro c h1 h2 h3 h4
    simp only [authHeader, applyAuthHeaders]
    rw [if_neg (fun hne => hne h1), if_neg (fun hne => hne h2), if_pos ⟨h3, h4⟩]
  · intro c h1 h2 h3
    simp only [authHeader, applyAuthHeaders]
    rw [if_neg (fun hne => hne h1), if_neg (fun hne => hne h2), if_neg ?_]
    rintro ⟨hu, hp⟩
    rcases h3 with h | h
    · exact hu h
    · exact hp h
  · intro env id note m p a b hmem
    by_cases hid : id ≤ 0
    · simp [handleCloseTicket, hid] at hmem
    · rcases hput : env.putTicket id UpdateData.stateClosed with e | e | ⟨st, bd⟩ <;>
        simp only [handleCloseTicket, hid, hput, if_neg, if_false, ite_false] at hmem
      · simp at hmem
      · simp at hmem
        exact hmem.2.2.1
      · by_cases hst : st ≠ 200
        · simp [hst] at hmem
          exact hmem.2.2.1
        · rcases bd with e | t
          · simp [hst] at hmem
            exact hmem.2.2.1
          · by_cases hnote : note ≠ ""
            · rcases hart : env.ticketArticleCreate (closingNoteArticle id note) with e | ca <;>
                simp [hst, hnote, hart] at hmem <;>
                exact hmem.2.2.1
            · simp [hst, hnote] at hmem
              exact hmem.2.2.1
  · intro env id agentID note m p a b hmem
    by_cases hid : id ≤ 0 ∨ agentID ≤ 0
    · simp [handleAssignTicket, hid] at hmem
    · rcases hput : env.putTicket id (UpdateData.ownerId agentID) with e | e | ⟨st, bd⟩ <;>
        simp only [handleAssignTicket, hid, hput, if_neg, if_false, ite_false] at hmem
      · simp at hmem
      · simp at hmem
        exact hmem.2.2.1
      · by_cases hst : st ≠ 200
        · simp [hst] at hmem
          exact hmem.2.2.1
        · rcases bd with e | t
          · simp [hst] at hmem
            exact hmem.2.2.1
          · by_cases hnote : note ≠ ""
            · rcases hart : env.ticketArticleCreate (assignNoteArticle id note) with e | ca <;>
                simp [hst, hnote, hart] at hmem <;>
                exact hmem.2.2.1
            · simp [hst, hnote] at hmem
              exact hmem.2.2.1
  · intro env id tagName m p a b hmem
    by_cases hval : id ≤ 0 ∨ tagName = ""
    · simp [handleAddTagToTicket, hval] at hmem
    · by_cases hlen : 100 < tagName.utf8ByteSize
      · simp [handleAddTagToTicket, hval, hlen] at hmem
      · rcases hpost : env.postTagAdd id tagName with e | e | ⟨st, bd⟩ <;>
          simp only [handleAddTagToTicket, hval, hlen, hpost, if_neg, if_false,
            ite_false] at hmem
        · simp at hmem
        · simp at hmem
          exact hmem.2.2.1
        · by_cases h201 : st = 201
          · rcases hver : env.ticketTagByTicket id with e | tags
            · simp [h201, hver] at hmem
              exact hmem.2.2.1
            · by_cases hfound : (tags.any fun tag => tag.name == tagName) = true <;>
                simp [h201, hver, hfound] at hmem <;>
                exact hmem.2.2.1
          · by_cases h200 : st = 200
            · rcases hver : env.ticketTagByTicket id with e | tags
              · simp [h201, h200, hver] at hmem
                exact hmem.2.2.1
              · by_cases hfound : (tags.any fun tag => tag.name == tagName) = true <;>
                  simp [h201, h200, hver, hfound] at hmem <;>
                  exact hmem.2.2.1
            · simp [h201, h200] at hmem
              exact hmem.2.2.1
  · intro env id ext m p a b hmem
    by_cases hid : id ≤ 0
    · simp [handleGetUser, hid] at hmem
    · rcases ext with _ | _
      · rcases hus : env.userShow id with e | u
        · simp [handleGetUser, getUserFinish, hid, hus] at hmem
        · rcases hmar : env.marshalUserData (UserData.standard u) with e | s <;>
            simp [handleGetUser, getUserFinish, hid, hus, hmar] at hmem
      · rcases hraw : env.getUserExtended id with e | e | ⟨st, bd⟩ <;>
          simp only [handleGetUser, hid, hraw, if_neg, if_false, ite_false] at hmem
        · simp at hmem
        · simp at hmem
          exact hmem.2.2.1
        · by_cases hst : st ≠ 200
          · simp [hst] at hmem
            exact hmem.2.2.1
          · rcases bd with e | raw
            · simp [hst] at hmem
              exact hmem.2.2.1
            · rcases hmar : env.marshalUserData (UserData.extended raw) with e | s <;>
                simp [getUserFinish, hst, hmar] at hmem <;>
                exact hmem.2.2.1
  · intro env id m p a b hmem
    by_cases hid : id ≤ 0
    · simp [handleGetTextModule, hid] at hmem
    · rcases hraw : env.getTextModuleRaw id with e | e | ⟨st, bd⟩ <;>
        simp only [handleGetTextModule, hid, hraw, if_neg, if_false, ite_false] at hmem
      · simp at hmem
      · simp at hmem
        exact hmem.2.2.1
      · by_cases h404 : st = 404
        · simp [h404] at hmem
          exact hmem.2.2.1
        · by_cases hst : st ≠ 200
          · simp [h404, hst] at hmem
            exact hmem.2.2.1
          · rcases bd with e | tm
            · simp [h404, hst] at hmem
              exact hmem.2.2.1
            · rcases hmar : env.marshalTextModule tm with e | s <;>
                simp [h404, hst, hmar] at hmem <;>
                exact hmem.2.2.1
  · intro env term m p a b hmem
    by_cases hterm : term = []
    · simp [handleSearchTextModules, hterm] at hmem
    · rcases hraw : env.getTextModulesRaw with e | e | ⟨st, bd⟩ <;>
        simp only [handleSearchTextModules, hterm, hraw, if_neg, if_false, ite_false] at hmem
      · simp at hmem
      · simp at hmem
        exact hmem.2.2.1
      · by_cases hst : st ≠ 200
        · simp [hst] at hmem
          exact hmem.2.2.1
        · rcases bd with e | mods
          · simp [hst] at hmem
            exact hmem.2.2.1
          · by_cases hmatch : (filterTextModules mods term).length = 0
            · simp [hst, hmatch] at hmem
              exact hmem.2.2.1
            · rcases hmar : env.marshalTextModules (filterTextModules mods term) with e | s <;>
                simp [hst, hmatch, hmar] at hmem <;>
                exact hmem.2.2.1
  · intro env m p a b hmem
    rcases hraw : env.getTextModulesRaw with e | e | ⟨st, bd⟩ <;>
      simp only [handleListTextModules, hraw] at hmem
    · simp at hmem
    · simp at hmem
      exact hmem.2.2.1
    · by_cases hst : st ≠ 200
      · simp [hst] at hmem
        exact hmem.2.2.1
      · rcases bd with e | mods
        · simp [hst] at hmem
          exact hmem.2.2.1
        · by_cases hlen : mods.length = 0
          · simp [hst, hlen] at hmem
            exact hmem.2.2.1
          · rcases hmar : env.marshalTextModules mods with e | s <;>
              simp [hst, hlen, hmar] at hmem <;>
              exact hmem.2.2.1

/-- Witness for C8: with all three credential kinds set the effective header
is the OAuth bearer, and the PUT issued by the close handler in the concrete
close scenario carries the token header of its (token-only) client. -/
theorem C8_witness :
    authHeader clientAll = some (AuthValue.bearer "oa")
    ∧ some (AuthValue.token "tok") = authHeader envCloseNoteFails.client :=
  ⟨C8_auth_precedence.1 clientAll (by decide),
   C8_auth_precedence.2.2.2.2.1 envCloseNoteFails 1 "done" "PUT"
     ("https://zammad.example" ++ "/api/v1/tickets/" ++ toString (1 : Int))
     (some (AuthValue.token "tok")) (RawBody.update UpdateData.stateClosed)
     (by decide)⟩

/-- **C9 counterexample** — marshal failures are not uniformly surfaced as
protocol-level errors: with JSON encoding failing, `search_tickets` returns a
*tool-level* error result (`.ok` with the error flag, i.e. a non-nil result
and nil Go error), and `create_ticket` *silently ignores* the failure,
returning a success text whose payload is empty. -/
theorem C9_counterexample :
    (handleSearchTickets envMarshalFails "q" 50).2 =
      .ok (toolErrorFromErr "Failed to format search results" "encode fail")
    ∧ (handleCreateTicket envMarshalFails "t" "g" "c" "b" "note" false).2 =
      .ok (toolText "Ticket created successfully:\n") :=
  ⟨rfl, rfl⟩

/-- **C9 (amended)** — the tool handlers split into three groups when JSON
encoding of an otherwise-successful result fails: `get_ticket`, `get_user`
and `get_ticket_articles` surface it as a protocol-level error (non-nil Go
error); `search_tickets`, `search_users`, `get_ticket_tags`, `list_all_tags`,
`search_tags`, `list_text_modules`, `get_text_module` and
`search_text_modules` surface it as a tool-level error result;
`create_ticket`, `add_note_to_ticket`, `reply_to_ticket`, `close_ticket` and
`assign_ticket` discard the failure and return success text with an empty
payload. -/
theorem C9_marshal_failure_paths :
    (∀ (env : Env) (id : Int) (t : Ticket) (e : String),
      0 < id → env.ticketShow id = .ok t → env.marshalTicket t = .error e →
      (handleGetTicket env id).2 =
        .error ("failed to marshal ticket " ++ toString id ++ ": " ++ e))
    ∧ (∀ (env : Env) (id : Int) (u : User) (e : String),
      0 < id → env.userShow id = .ok u →
      env.marshalUserData (UserData.standard u) = .error e →
      (handleGetUser env id false).2 =
        .error ("failed to marshal user " ++ toString id ++ " data: " ++ e))
    ∧ (∀ (env : Env) (id : Int) (arts : List TicketArticle) (e : String),
      0 < id → env.ticketArticleByTicket id = .ok arts →
      env.marshalArticles arts = .error e →
      (handleGetTicketArticles env id).2 =
        .error ("failed to marshal articles for ticket " ++ toString id ++ ": " ++ e))
    ∧ (∀ (env : Env) (q : String) (limit : Int) (ts : List Ticket) (e : String),
      q ≠ "" → env.ticketSearch q limit = .ok ts → env.marshalTickets ts = .error e →
      (handleSearchTickets env q limit).2 =
        .ok (toolErrorFromErr "Failed to format search results" e))
    ∧ (∀ (env : Env) (q : String) (limit : Int) (us : List User) (e : String),
      q ≠ "" → env.userSearch q limit = .ok us → env.marshalUsers us = .error e →
      (handleSearchUsers env q limit).2 =
        .ok (toolErrorFromErr "Failed to format user search results" e))
    ∧ (∀ (env : Env) (id : Int) (tags : List Tag) (e : String),
      0 < id → env.ticketTagByTicket id = .ok tags → tags.length ≠ 0 →
      env.marshalTags tags = .error e →
      (handleGetTicketTags env id).2 =
        .ok (toolErrorFromErr "Failed to format tag results" e))
    ∧ (∀ (env : Env) (term : String) (tags : List Tag) (e : String),
      term ≠ "" → env.tagSearch term = .ok tags → tags.length ≠ 0 →
      env.marshalTags tags = .error e →
      (handleSearchTags env term).2 =
        .ok (toolErrorFromErr "Failed to format tag search results" e))
    ∧ (∀ (env : Env) (id : Int) (tm : TextModule) (e : String),
      0 < id → env.getTextModuleRaw id = .resp 200 (.ok tm) →
      env.marshalTextModule tm = .error e →
      (handleGetTextModule env id).2 =
        .ok (toolErrorFromErr "Failed to format text module" e))
    ∧ (∀ (env : Env) (term : List Nat) (mods : List TextModule) (e : String),
      term ≠ [] → env.getTextModulesRaw = .resp 200 (.ok mods) →
      (filterTextModules mods term).length ≠ 0 →
      env.marshalTextModules (filterTextModules mods term) = .error e →
      (handleSearchTextModules env term).2 =
        .ok (toolErrorFromErr "Failed to format text modules search results" e))
    ∧ (∀ (env : Env) (title group customer body articleType : String) (internal : Bool)
        (ct : Ticket) (e : String),
      title ≠ "" → group ≠ "" → customer ≠ "" → body ≠ "" →
      env.ticketCreate
        { title := title, group := group, customer := customer,
          article := { body := body, type := articleType, internal := internal } } = .ok ct →
      env.marshalTicket ct = .error e →
      (handleCreateTicket env title group customer body articleType internal).2 =
        .ok (toolText "Ticket created successfully:\n"))
    ∧ (∀ (env : Env) (id : Int) (body : String) (internal : Bool) (ca : TicketArticle)
        (e : String),
      0 < id → body ≠ "" →
      env.ticketArticleCreate
        { ticketID := id, body := body, type := "note", internal := internal } = .ok ca →
      env.marshalArticle ca = .error e →
      (handleAddNoteToTicket env id body internal).2 =
        .ok (toolText ("Note added successfully to ticket " ++ toString id ++ ":\n")))
    ∧ (∀ (env : Env) (id : Int) (body to_ cc subject : String) (internal : Bool)
        (ca : TicketArticle) (e : String),
      0 < id → body ≠ "" → subject ≠ "" →
      env.ticketArticleCreate
        { ticketID := id, body := body, type := "email", sender := "Agent",
          subject := subject, to_ := to_, cc := cc, internal := internal,
          contentType := "text/html" } = .ok ca →
      env.marshalArticle ca = .error e →
      (handleReplyToTicket env id body to_ cc subject internal).2 =
        .ok (toolText ("Email reply sent successfully to ticket " ++ toString id ++ ":\n")))
    ∧ (∀ (env : Env) (id : Int) (t : Ticket) (e : String),
      0 < id → env.putTicket id UpdateData.stateClosed = .resp 200 (.ok t) →
      env.marshalTicket t = .error e →
      (handleCloseTicket env id "").2.2 =
        .ok (toolText ("Ticket " ++ toString id ++ " closed successfully:\n")))
    ∧ (∀ (env : Env) (id agentID : Int) (t : Ticket) (e : String),
      0 < id → 0 < agentID →
      env.putTicket id (UpdateData.ownerId agentID) = .resp 200 (.ok t) →
      env.marshalTicket t = .error e →
      (handleAssignTicket env id agentID "").2.2 =
        .ok (toolText ("Ticket " ++ toString id ++ " assigned to agent " ++
          toString agentID ++ " successfully:\n")))
    ∧ (∀ (env : Env) (tags : List Tag) (e : String),
      env.tagAdminList = .ok tags → tags.length ≠ 0 →
      env.marshalTags tags = .error e →
      (handleListAllTags env).2 =
        .ok (toolErrorFromErr "Failed to format tag list" e))
    ∧ (∀ (env : Env) (mods : List TextModule) (e : String),
      env.getTextModulesRaw = .resp 200 (.ok mods) → mods.length ≠ 0 →
      env.marshalTextModules mods = .error e →
      (handleListTextModules env).2 =
        .ok (toolErrorFromErr "Failed to format text modules" e)) := by
  refine ⟨?_, ?_, ?_, ?_, ?_, ?_, ?_, ?_, ?_, ?_, ?_, ?_, ?_, ?_, ?_, ?_⟩
  · intro env id t e hid hshow hmar
    have hval : ¬(id ≤ 0) := by omega
    simp [handleGetTicket, hval, hshow, hmar]
  · intro env id u e hid hus hmar
    have hval : ¬(id ≤ 0) := by omega
    simp [handleGetUser, getUserFinish, hval, hus, hmar]
  · intro env id arts e hid harts hmar
    have hval : ¬(id ≤ 0) := by omega
    simp [handleGetTicketArticles, hval, harts, hmar]
  · intro env q limit ts e hq hsearch hmar
    simp [handleSearchTickets, hq, hsearch, hmar]
  · intro env q limit us e hq hsearch hmar
    simp [handleSearchUsers, hq, hsearch, hmar]
  · intro env id tags e hid htags hlen hmar
    have hval : ¬(id ≤ 0) := by omega
    simp [handleGetTicketTags, hval, htags, hlen, hmar]
  · intro env term tags e hterm htags hlen hmar
    simp [handleSearchTags, hterm, htags, hlen, hmar]
  · intro env id tm e hid hraw hmar
    have hval : ¬(id ≤ 0) := by omega
    simp [handleGetTextModule, hval, hraw, hmar]
  · intro env term mods e hterm hraw hlen hmar
    simp [handleSearchTextModules, hterm, hraw, hlen, hmar]
  · intro env title group customer body articleType internal ct e h1 h2 h3 h4 hcreate hmar
    have hval : ¬(title = "" ∨ group = "" ∨ customer = "" ∨ body = "") := by
      push_neg
      exact ⟨h1, h2, h3, h4⟩
    simp [handleCreateTicket, hval, hcreate, hmar, marshalDiscard]
  · intro env id body internal ca e hid hbody hcreate hmar
    have hval : ¬(id ≤ 0 ∨ body = "") := by
      push_neg
      exact ⟨by omega, hbody⟩
    simp [handleAddNoteToTicket, hval, hcreate, hmar, marshalDiscard]
  · intro env id body to_ cc subject internal ca e hid hbody hsubj hcreate hmar
    have hval : ¬(id ≤ 0 ∨ body = "") := by
      push_neg
      exact ⟨by omega, hbody⟩
    simp [handleReplyToTicket, replyCreateArticle, hval, hsubj, hcreate, hmar, marshalDiscard]
  · intro env id t e hid hput hmar
    have hval : ¬(id ≤ 0) := by omega
    simp [handleCloseTicket, hval, hput, hmar, marshalDiscard]
  · intro env id agentID t e hid hagent hput hmar
    have hval : ¬(id ≤ 0 ∨ agentID ≤ 0) := by
      push_neg
      exact ⟨by omega, by omega⟩
    simp [handleAssignTicket, hval, hput, hmar, marshalDiscard]
  · intro env tags e htags hlen hmar
    simp [handleListAllTags, htags, hlen, hmar]
  · intro env mods e hraw hlen hmar
    simp [handleListTextModules, hraw, hlen, hmar]

/-- Witness for C9: at the concrete failing-marshal backend, one handler from
each of the three groups. -/
theorem C9_witness :
    (handleGetTicket envMarshalFails 1).2 = .error "failed to marshal ticket 1: encode fail"
    ∧ (handleSearchTickets envMarshalFails "q" 50).2 =
      .ok (toolErrorFromErr "Failed to format search results" "encode fail")
    ∧ (handleCreateTicket envMarshalFails "t" "g" "c" "b" "note" false).2 =
      .ok (toolText "Ticket created successfully:\n") := by
  have h := C9_marshal_failure_paths
  refine ⟨h.1 envMarshalFails 1 { id := 1, title := "T" } "encode fail"
      (by decide) rfl rfl, ?_, ?_⟩
  · exact h.2.2.2.1 envMarshalFails "q" 50 [{ id := 1, title := "T" }] "encode fail"
      (by decide) rfl rfl
  · exact h.2.2.2.2.2.2.2.2.2.1 envMarshalFails "t" "g" "c" "b" "note" false
      { id := 5, title := "t", group := "g", customer := "c",
        article := { body := "b", type := "note", internal := false } } "encode fail"
      (by decide) (by decide) (by decide) (by decide) rfl rfl

end ZammadMCP
